import Mathlib

/-!
# Verification of the CARLA client `World` facade (`LibCarla/source/carla/client/World.cpp`)

Shallow embedding of the `carla::client::World` facade and the episode/session
layer it delegates to.  The facade code itself (`World.cpp`) is embedded
faithfully; the collaborators it calls into (`detail::Simulator`,
`detail::EpisodeProxy`, `StringUtil`, the tick-callback registry) are not part
of the source tree and are modelled from the specification, each such
definition marked `Modelled from the spec:` in its doc comment.

Machine integers (`ActorId` = unsigned, frame numbers = `uint64_t`) are
modelled as `Nat`; ids and frames are only compared for equality/order here,
no overflow-relevant arithmetic occurs in the embedded code.  The floating
point payloads of geometry types (`geom::Location`, `geom::Vector3D`, search
distances) are only passed through opaquely by the facade, never computed on,
so they are modelled with `Int` coordinates.
-/

deriving instance DecidableEq for Except

namespace Carla

/-- The error taxonomy of the facade: `InvalidEpisode` (session ended),
`Timeout` (tick/wait did not complete in time), `SpawnFailure`
(spawn-protocol failure). -/
inductive Err where
  | InvalidEpisode
  | Timeout
  | SpawnFailure
deriving DecidableEq, Repr

/-- A C++ exception as thrown by the spawn protocol: which facade-level error
it carries, and whether the exception type derives from `std::exception`
(which decides whether `catch (const std::exception &)` in
`World::TrySpawnActor` can catch it). -/
structure CppException where
  err : Err
  derivesStd : Bool
deriving DecidableEq, Repr

/-- A live actor handle: id (opaque unsigned integer, unique within one
episode), dot-delimited type identifier string, and the stable sign id read
through the `TrafficSign`/`TrafficLight` capability. -/
structure Actor where
  id : Nat
  typeId : String
  signId : String
deriving DecidableEq, Repr

/-- An immutable world snapshot, identified by its frame number. -/
structure WorldSnapshot where
  frame : Nat
deriving DecidableEq, Repr

/-- World-space location (`geom::Location`); coordinates opaque to the facade. -/
structure Location where
  x : Int
  y : Int
  z : Int
deriving DecidableEq, Repr

/-- Direction vector (`geom::Vector3D`); coordinates opaque to the facade. -/
structure Vector3D where
  x : Int
  y : Int
  z : Int
deriving DecidableEq, Repr

/-- A labelled point returned by spatial queries (`rpc::LabelledPoint`). -/
structure LabelledPoint where
  location : Location
  label : Nat
deriving DecidableEq, Repr

/-- A blueprint catalog entry (`ActorBlueprint`), opaque to the facade. -/
structure ActorBlueprint where
  bpId : String
deriving DecidableEq, Repr

/-- A world-space transform (`geom::Transform`), opaque to the facade. -/
structure Transform where
  location : Location
  rotation : Vector3D
deriving DecidableEq, Repr

/-- Attachment kind (`rpc::AttachmentType`). -/
inductive AttachmentType where
  | Rigid
  | SpringArm
  | SpringArmGhost
deriving DecidableEq, Repr

/-- A road-map landmark carrying a stable string identifier. -/
structure Landmark where
  lmId : String
deriving DecidableEq, Repr

/-- `Landmark::GetId()`. -/
def Landmark.GetId (l : Landmark) : String := l.lmId

namespace StringUtil

/-- Modelled from the spec: the wildcard matching of `StringUtil::Match`
(`carla/StringUtil.h`, not under `src/`).  The spec describes it as wildcard
pattern matching where `*` matches any (possibly empty) substring and other
characters match themselves literally.  Recursion is structural on the
pattern: a `*` consumes any suffix of the subject string. -/
def globMatch : List Char → List Char → Bool
  | s, [] => s.isEmpty
  | s, '*' :: ps => (s.tails).any (fun t => globMatch t ps)
  | [], _ :: _ => false
  | c :: s, pc :: ps => pc == c && globMatch s ps

/-- Modelled from the spec: `StringUtil::Match(str, test)` — does `str` match
the wildcard pattern `test`. -/
def Match (str test : String) : Bool := globMatch str.data test.data

end StringUtil

example : StringUtil.Match "traffic.sign.yield" "*traffic.*" = true := by decide
example : StringUtil.Match "traffic.traffic_light" "*traffic.*" = true := by decide
example : StringUtil.Match "traffic.traffic_light" "*traffic_light*" = true := by decide
example : StringUtil.Match "vehicle.audi.a2" "*traffic.*" = false := by decide
example : StringUtil.Match "traffic.sign.yield" "*traffic_light*" = false := by decide

/-- Modelled from the spec: the session state behind `detail::Simulator` (not
under `src/`).  It holds the episode's actor registry (in session-reported
order), the current frame number, the tick-callback registry (ids only; the
callback function payloads are opaque), and the behaviour of the external
collaborators as function fields: whether a simulation step completes within a
given timeout, the geometry ray-cast results, and the underlying spawn
protocol's outcome per input. -/
structure Simulator where
  actors : List Actor
  frame : Nat
  callbacks : List Nat
  nextCallbackId : Nat
  /-- whether the session acknowledges the next simulation step within the
  given timeout (milliseconds) -/
  stepCompletesWithin : Nat → Bool
  /-- underlying geometry ray cast for `ProjectPoint`: hit flag and point -/
  projectPointImpl : Location → Vector3D → Int → Bool × LabelledPoint
  /-- underlying geometry segment cast for `CastRay` -/
  castRayImpl : Location → Location → List LabelledPoint
  /-- outcome of the underlying spawn protocol for each input; failures are
  C++ exceptions -/
  spawnImpl : ActorBlueprint → Transform → Option Actor → AttachmentType →
    Except CppException Actor

/-- Modelled from the spec: `Simulator::MakeActor` builds a live actor handle
from an actor description; in this model descriptions are the actor values
themselves, so construction is the identity. -/
def Simulator.MakeActor (_sim : Simulator) (description : Actor) : Actor :=
  description

/-- Modelled from the spec: `Simulator::GetWorldSnapshot` captures the state
at the current frame. -/
def Simulator.GetWorldSnapshot (sim : Simulator) : WorldSnapshot :=
  ⟨sim.frame⟩

/-- Modelled from the spec: `Simulator::GetActorById` — "looks up one id;
absent id yields empty result (not an error)"; the first actor in the
episode registry with the queried id. -/
def Simulator.GetActorById (sim : Simulator) (id : Nat) : Option Actor :=
  sim.actors.find? (fun a => a.id == id)

/-- Modelled from the spec: `Simulator::GetAllTheActorsInTheEpisode` — the
full current actor set, in session-reported order. -/
def Simulator.GetAllTheActorsInTheEpisode (sim : Simulator) : List Actor :=
  sim.actors

/-- Modelled from the spec: `Simulator::GetActorsById` — bulk resolution in
caller-supplied order; unresolved ids are simply omitted. -/
def Simulator.GetActorsById (sim : Simulator) (ids : List Nat) : List Actor :=
  ids.filterMap sim.GetActorById

/-- Modelled from the spec: `Simulator::Tick` — "requests the session to
advance exactly one simulation step and blocks until that step's snapshot is
acknowledged, or timeout elapses".  On success it returns the new frame
number together with the advanced session state; otherwise it fails with
`Timeout`. -/
def Simulator.Tick (sim : Simulator) (timeout : Nat) :
    Except Err (Nat × Simulator) :=
  if sim.stepCompletesWithin timeout then
    .ok (sim.frame + 1, { sim with frame := sim.frame + 1 })
  else
    .error .Timeout

/-- Modelled from the spec: `Simulator::WaitForTick` — blocks until the
session publishes its next snapshot, or the timeout elapses first; does not
itself advance simulation time. -/
def Simulator.WaitForTick (sim : Simulator) (timeout : Nat) :
    Except Err WorldSnapshot :=
  if sim.stepCompletesWithin timeout then
    .ok ⟨sim.frame + 1⟩
  else
    .error .Timeout

/-- Modelled from the spec: `Simulator::RegisterOnTickEvent` — registers a
callback under a fresh, monotonically increasing registration id. -/
def Simulator.RegisterOnTickEvent (sim : Simulator) : Nat × Simulator :=
  (sim.nextCallbackId,
   { sim with
      callbacks := sim.callbacks ++ [sim.nextCallbackId]
      nextCallbackId := sim.nextCallbackId + 1 })

/-- Modelled from the spec: `Simulator::RemoveOnTickEvent` — removes the
callback registered under the given id. -/
def Simulator.RemoveOnTickEvent (sim : Simulator) (callback_id : Nat) :
    Simulator :=
  { sim with callbacks := sim.callbacks.filter (fun i => i != callback_id) }

/-- Modelled from the spec: `detail::EpisodeProxy` — a shared-ownership
reference to a session, holding identity plus a validity flag. -/
structure EpisodeProxy where
  valid : Bool
  sim : Simulator

/-- Modelled from the spec: `EpisodeProxy::Lock` — "if the underlying session
has ended (disconnect, episode reload), `Lock` fails with `InvalidEpisode`
rather than returning a handle to a stale session."  The exception raised is
a `std::exception`-derived type. -/
def EpisodeProxy.Lock (e : EpisodeProxy) : Except Err Simulator :=
  if e.valid then .ok e.sim else .error .InvalidEpisode

/-- The `carla::client::World` facade: owns no mutable state beyond the
episode handle (`World.h`: field `_episode`). -/
structure World where
  _episode : EpisodeProxy

/-- Outcome of a `noexcept` C++ function: either it returns a value, or an
exception escaped past the `noexcept` boundary and the program terminated
(`std::terminate`). -/
inductive SpawnOutcome where
  | returned (actor : Option Actor)
  | terminated
deriving DecidableEq, Repr

namespace World

/-- `World::GetSnapshot`: `return _episode.Lock()->GetWorldSnapshot();`
(a `Lock` failure propagates to the caller, as an exception does in the
source). -/
def GetSnapshot (w : World) : Except Err WorldSnapshot :=
  match w._episode.Lock with
  | .error e => .error e
  | .ok sim => .ok sim.GetWorldSnapshot

/-- `World::GetActor(ActorId)`: locks the episode, queries the description by
id, and wraps it in an actor handle when present, `nullptr` otherwise. -/
def GetActor (w : World) (id : Nat) : Except Err (Option Actor) :=
  match w._episode.Lock with
  | .error e => .error e
  | .ok simulator =>
    .ok ((simulator.GetActorById id).map simulator.MakeActor)

/-- `World::GetActors()`: an `ActorList` over all the actors in the episode;
`ActorList::at` materialises each description into a handle via `MakeActor`. -/
def GetActors (w : World) : Except Err (List Actor) :=
  match w._episode.Lock with
  | .error e => .error e
  | .ok sim => .ok (sim.GetAllTheActorsInTheEpisode.map sim.MakeActor)

/-- `World::GetActors(const std::vector<ActorId> &)`: an `ActorList` over the
actors resolved from the caller-supplied ids. -/
def GetActorsByIds (w : World) (actor_ids : List Nat) :
    Except Err (List Actor) :=
  match w._episode.Lock with
  | .error e => .error e
  | .ok sim => .ok ((sim.GetActorsById actor_ids).map sim.MakeActor)

/-- `World::SpawnActor`: `return _episode.Lock()->SpawnActor(...)`.  A `Lock`
failure is raised as a `std::exception`-derived `InvalidEpisode`; otherwise
the underlying spawn protocol decides the outcome. -/
def SpawnActor (w : World) (blueprint : ActorBlueprint)
    (transform : Transform) (parent_actor : Option Actor)
    (attachment_type : AttachmentType) : Except CppException Actor :=
  match w._episode.Lock with
  | .error e => .error ⟨e, true⟩
  | .ok sim => sim.spawnImpl blueprint transform parent_actor attachment_type

/-- `World::TrySpawnActor` (`noexcept`): calls `SpawnActor` inside
`try { ... } catch (const std::exception &) { return nullptr; }`.  An
exception that does not derive from `std::exception` is not caught; it hits
the `noexcept` boundary and the program terminates. -/
def TrySpawnActor (w : World) (blueprint : ActorBlueprint)
    (transform : Transform) (parent_actor : Option Actor)
    (attachment_type : AttachmentType) : SpawnOutcome :=
  match w.SpawnActor blueprint transform parent_actor attachment_type with
  | .ok actor => .returned (some actor)
  | .error e => if e.derivesStd then .returned none else .terminated

/-- `World::WaitForTick`: `return _episode.Lock()->WaitForTick(timeout);` -/
def WaitForTick (w : World) (timeout : Nat) : Except Err WorldSnapshot :=
  match w._episode.Lock with
  | .error e => .error e
  | .ok sim => sim.WaitForTick timeout

/-- `World::OnTick`: `return _episode.Lock()->RegisterOnTickEvent(callback);`
(the callback function payload is opaque in the model; only the registration
id matters).  Returns the new registration id and the updated state. -/
def OnTick (w : World) : Except Err (Nat × World) :=
  match w._episode.Lock with
  | .error e => .error e
  | .ok sim =>
    let (id, sim') := sim.RegisterOnTickEvent
    .ok (id, { w with _episode := { w._episode with sim := sim' } })

/-- `World::RemoveOnTick`: `_episode.Lock()->RemoveOnTickEvent(callback_id);` -/
def RemoveOnTick (w : World) (callback_id : Nat) : Except Err World :=
  match w._episode.Lock with
  | .error e => .error e
  | .ok sim =>
    .ok { w with
           _episode := { w._episode with
                          sim := sim.RemoveOnTickEvent callback_id } }

/-- `World::Tick`: `return _episode.Lock()->Tick(timeout);` — the advanced
session state is made explicit by state passing. -/
def Tick (w : World) (timeout : Nat) : Except Err (Nat × World) :=
  match w._episode.Lock with
  | .error e => .error e
  | .ok sim =>
    match sim.Tick timeout with
    | .error e => .error e
    | .ok (frame, sim') =>
      .ok (frame, { w with _episode := { w._episode with sim := sim' } })

/-- The scan loop of `World::GetTrafficSign`: iterate the actor list in
order; for each actor whose type id matches the wildcard pattern, read the
sign id through the `TrafficSign` capability and return the actor on an exact
match with the landmark id; `nullptr` when the scan finds nothing. -/
def trafficScan (pattern : String) (landmark_id : String) :
    List Actor → Option Actor
  | [] => none
  | actor :: rest =>
    if StringUtil.Match actor.typeId pattern then
      if actor.signId == landmark_id then some actor
      else trafficScan pattern landmark_id rest
    else trafficScan pattern landmark_id rest

/-- `World::GetTrafficSign(const Landmark &)`: fetches all actors via
`GetActors()` and scans them against the pattern `*traffic.*`, comparing each
matching actor's sign id with `landmark.GetId()`. -/
def GetTrafficSign (w : World) (landmark : Landmark) :
    Except Err (Option Actor) :=
  match w.GetActors with
  | .error e => .error e
  | .ok actors => .ok (trafficScan "*traffic.*" landmark.GetId actors)

/-- `World::GetTrafficLight(const Landmark &)`: same scan with the pattern
`*traffic_light*`. -/
def GetTrafficLight (w : World) (landmark : Landmark) :
    Except Err (Option Actor) :=
  match w.GetActors with
  | .error e => .error e
  | .ok actors => .ok (trafficScan "*traffic_light*" landmark.GetId actors)

/-- `World::ProjectPoint`: forwards to the episode's geometry query and turns
the `(hit, point)` pair into an optional result. -/
def ProjectPoint (w : World) (location : Location) (direction : Vector3D)
    (search_distance : Int) : Except Err (Option LabelledPoint) :=
  match w._episode.Lock with
  | .error e => .error e
  | .ok sim =>
    let result := sim.projectPointImpl location direction search_distance
    if result.1 then .ok (some result.2) else .ok none

/-- `World::GroundProjection`: `const geom::Vector3D DownVector(0,0,-1);
return ProjectPoint(location, DownVector, search_distance);` -/
def GroundProjection (w : World) (location : Location)
    (search_distance : Int) : Except Err (Option LabelledPoint) :=
  let DownVector : Vector3D := ⟨0, 0, -1⟩
  w.ProjectPoint location DownVector search_distance

/-- `World::CastRay`: `return _episode.Lock()->CastRay(start, end);` -/
def CastRay (w : World) (start_location : Location)
    (end_location : Location) : Except Err (List LabelledPoint) :=
  match w._episode.Lock with
  | .error e => .error e
  | .ok sim => .ok (sim.castRayImpl start_location end_location)

end World

/-! ## Tick-callback registry under concurrent dispatch

Modelled from the spec: the registry behind `RegisterOnTickEvent` /
`RemoveOnTickEvent` and its snapshot-dispatch loop live in the episode
implementation, which is not under `src/`.  The spec requires: "a callback
must never be invoked after its id has been removed, and removal must be safe
to call concurrently with in-flight delivery (the canonical race:
remove-during-dispatch must not re-enter a removed callback)" — i.e. removal
is linearizable with dispatch.  The interleaving of removal and delivery is
made explicit as a labelled transition system: a dispatch in flight holds the
list of callback ids still to be invoked for the current snapshot, and any
`remove` step may interleave with `invoke` steps of the same dispatch. -/

/-- State of the tick-callback registry: the currently registered ids, the
next fresh registration id (registration ids are unique and monotonic), and
the in-flight dispatch, if any — the snapshot frame being delivered plus the
ids not yet processed in this dispatch round. -/
structure RegistryState where
  registered : List Nat
  next : Nat
  pending : Option (Nat × List Nat)
deriving DecidableEq, Repr

/-- Observable events of the registry: registration, removal, the start of a
snapshot dispatch, the invocation (or skipping) of one callback during a
dispatch, and the end of a dispatch. -/
inductive RegistryEvent where
  | register (id : Nat)
  | remove (id : Nat)
  | beginDispatch (frame : Nat)
  | invoke (id : Nat) (frame : Nat)
  | skip (id : Nat) (frame : Nat)
  | endDispatch (frame : Nat)
deriving DecidableEq, Repr

/-- Modelled from the spec: one atomic step of the registry.  `register`
hands out the next fresh id; `remove` may fire at any time, also while a
dispatch is in flight; `beginDispatch` snapshots the registered ids for
delivery; `invoke` delivers to the next pending id only if it is still
registered, while `skip` passes over a pending id that has been removed in
the meantime (the linearizability guard). -/
inductive RegistryStep : RegistryState → RegistryEvent → RegistryState → Prop where
  | register (st : RegistryState) :
      RegistryStep st (.register st.next)
        ⟨st.registered ++ [st.next], st.next + 1, st.pending⟩
  | remove (st : RegistryState) (i : Nat) :
      RegistryStep st (.remove i)
        ⟨st.registered.filter (fun j => j != i), st.next, st.pending⟩
  | beginDispatch (st : RegistryState) (f : Nat) (h : st.pending = none) :
      RegistryStep st (.beginDispatch f)
        ⟨st.registered, st.next, some (f, st.registered)⟩
  | invoke (st : RegistryState) (f i : Nat) (rest : List Nat)
      (h : st.pending = some (f, i :: rest)) (hm : i ∈ st.registered) :
      RegistryStep st (.invoke i f) ⟨st.registered, st.next, some (f, rest)⟩
  | skip (st : RegistryState) (f i : Nat) (rest : List Nat)
      (h : st.pending = some (f, i :: rest)) (hm : i ∉ st.registered) :
      RegistryStep st (.skip i f) ⟨st.registered, st.next, some (f, rest)⟩
  | endDispatch (st : RegistryState) (f : Nat) (h : st.pending = some (f, [])) :
      RegistryStep st (.endDispatch f) ⟨st.registered, st.next, none⟩

/-- A finite execution of the registry: the list of events observed between
two states. -/
inductive RegistryTrace : RegistryState → List RegistryEvent → RegistryState → Prop where
  | nil (st : RegistryState) : RegistryTrace st [] st
  | cons {st st' st'' : RegistryState} {e : RegistryEvent}
      {es : List RegistryEvent} :
      RegistryStep st e st' → RegistryTrace st' es st'' →
      RegistryTrace st (e :: es) st''

/-- The state a completed removal of id `i` leaves behind: `i` is no longer
registered, and `i` is below the fresh-id counter, so it can never be handed
out again. -/
def RemovedOut (i : Nat) (st : RegistryState) : Prop :=
  i ∉ st.registered ∧ i < st.next

/-! ## Concrete fixtures used by witnesses and counterexamples -/

/-- Placeholder labelled point for fixture geometry queries. -/
def defaultPoint : LabelledPoint := ⟨⟨0, 0, 0⟩, 0⟩

/-- A fixture session whose spawn protocol always fails with a
`std::exception`-derived `SpawnFailure`, steps complete within any timeout,
and geometry queries miss. -/
def mkSim (actors : List Actor) : Simulator where
  actors := actors
  frame := 0
  callbacks := []
  nextCallbackId := 0
  stepCompletesWithin := fun _ => true
  projectPointImpl := fun _ _ _ => (false, defaultPoint)
  castRayImpl := fun _ _ => []
  spawnImpl := fun _ _ _ _ => .error ⟨.SpawnFailure, true⟩

/-- A fixture world over a live (valid) episode. -/
def mkWorld (actors : List Actor) : World := ⟨⟨true, mkSim actors⟩⟩

/-- A fixture world whose underlying session has ended. -/
def endedWorld : World := ⟨⟨false, mkSim []⟩⟩

/-- A yield traffic sign with stable sign id `"42"`. -/
def signYield : Actor := ⟨1, "traffic.sign.yield", "42"⟩

/-- A traffic light with stable sign id `"42"`. -/
def lightActor : Actor := ⟨1, "traffic.traffic_light", "42"⟩

/-- A plain vehicle actor (no traffic-control capability). -/
def vehicleActor : Actor := ⟨5, "vehicle.audi.a2", ""⟩

/-- Another vehicle actor, id 3. -/
def vehicleActor3 : Actor := ⟨3, "vehicle.bmw.grandtourer", ""⟩

/-- Fixture blueprint argument. -/
def bp0 : ActorBlueprint := ⟨"vehicle.audi.a2"⟩

/-- Fixture transform argument. -/
def tf0 : Transform := ⟨⟨0, 0, 0⟩, ⟨0, 0, 0⟩⟩

/-! ## Helper lemmas -/

/-- On a live episode, `Lock` hands out the session. -/
theorem lock_of_valid {w : World} (hvalid : w._episode.valid = true) :
    w._episode.Lock = .ok w._episode.sim := by
  simp [EpisodeProxy.Lock, hvalid]

/-- On an ended episode, `Lock` fails with `InvalidEpisode`. -/
theorem lock_of_ended {w : World} (hended : w._episode.valid = false) :
    w._episode.Lock = .error .InvalidEpisode := by
  simp [EpisodeProxy.Lock, hended]

/-! ## Claim theorems -/

/-- C5: For every origin location and every search distance `d`,
`GroundProjection(origin, d)` returns exactly the same result as
`ProjectPoint(origin, (0,0,-1), d)`; it has no independent logic beyond
delegating with the fixed straight-down direction vector. -/
theorem groundProjection_eq_projectPoint_down (w : World)
    (location : Location) (search_distance : Int) :
    w.GroundProjection location search_distance =
      w.ProjectPoint location ⟨0, 0, -1⟩ search_distance := rfl

/-- C4: The Sign wildcard pattern `*traffic.*` also matches traffic-light
actors: over a directory containing one traffic-light actor with type id
`traffic.traffic_light` and sign id `"42"`, `GetTrafficSign` with landmark id
`"42"` returns that traffic-light actor rather than empty. -/
theorem sign_pattern_captures_traffic_light :
    StringUtil.Match lightActor.typeId "*traffic.*" = true ∧
    lightActor.typeId = "traffic.traffic_light" ∧
    (mkWorld [lightActor]).GetTrafficSign ⟨"42"⟩ = .ok (some lightActor) := by
  refine ⟨by decide, rfl, by decide⟩

/-- C10: `TrySpawnActor` converts a spawn failure into an empty result
exactly when the failure is raised as an exception derived from
`std::exception`; a failure raised as any other type escapes the
`catch (const std::exception &)` handler, hits the `noexcept` boundary, and
the program terminates instead of returning. -/
theorem trySpawn_catch_is_exactly_std_exception (w : World)
    (blueprint : ActorBlueprint) (transform : Transform)
    (parent_actor : Option Actor) (attachment_type : AttachmentType) :
    (w.TrySpawnActor blueprint transform parent_actor attachment_type =
        .returned none ↔
      ∃ e, w.SpawnActor blueprint transform parent_actor attachment_type =
          .error e ∧ e.derivesStd = true) ∧
    (w.TrySpawnActor blueprint transform parent_actor attachment_type =
        .terminated ↔
      ∃ e, w.SpawnActor blueprint transform parent_actor attachment_type =
          .error e ∧ e.derivesStd = false) := by
  unfold World.TrySpawnActor
  cases h : w.SpawnActor blueprint transform parent_actor attachment_type with
  | ok a => simp
  | error e => cases he : e.derivesStd <;> simp [he]

/-- C2: `TrySpawnActor` never surfaces a failure to the caller: on every
input on which `SpawnActor` fails, `TrySpawnActor` returns an empty result,
and on every input on which `SpawnActor` succeeds, `TrySpawnActor` returns
the same actor handle.  The hypothesis records that every failure of the
spawn protocol is raised as a `std::exception`-derived exception, which is
how the session layer raises `SpawnFailure`/`InvalidEpisode`/`Timeout`. -/
theorem trySpawn_never_surfaces_failure (w : World)
    (blueprint : ActorBlueprint) (transform : Transform)
    (parent_actor : Option Actor) (attachment_type : AttachmentType)
    (hstd : ∀ e,
      w.SpawnActor blueprint transform parent_actor attachment_type =
        .error e → e.derivesStd = true) :
    (∀ e, w.SpawnActor blueprint transform parent_actor attachment_type =
        .error e →
      w.TrySpawnActor blueprint transform parent_actor attachment_type =
        .returned none) ∧
    (∀ a, w.SpawnActor blueprint transform parent_actor attachment_type =
        .ok a →
      w.TrySpawnActor blueprint transform parent_actor attachment_type =
        .returned (some a)) := by
  constructor
  · intro e he
    unfold World.TrySpawnActor
    rw [he]
    simp [hstd e he]
  · intro a ha
    unfold World.TrySpawnActor
    rw [ha]

/-- C2 witness: on a concrete world whose spawn protocol fails with a
`std::exception`-derived `SpawnFailure`, `SpawnActor` fails and
`TrySpawnActor` returns empty. -/
theorem trySpawn_never_surfaces_failure_witness :
    (mkWorld []).SpawnActor bp0 tf0 none .Rigid =
      .error ⟨.SpawnFailure, true⟩ ∧
    (mkWorld []).TrySpawnActor bp0 tf0 none .Rigid = .returned none := by
  have h := trySpawn_never_surfaces_failure (mkWorld []) bp0 tf0 none .Rigid
    (by intro e he
        have h0 : (mkWorld []).SpawnActor bp0 tf0 none .Rigid =
            .error ⟨.SpawnFailure, true⟩ := rfl
        rw [h0] at he
        rw [← Except.error.inj he])
  exact ⟨rfl, h.1 ⟨.SpawnFailure, true⟩ rfl⟩

/-- C6: for every actor id present in the current episode, `GetActor(id)`
returns a non-empty handle whose id equals the queried id; for every id not
present, `GetActor(id)` returns an empty result (not an error). -/
theorem getActor_id_lookup (w : World) (id : Nat)
    (hvalid : w._episode.valid = true) :
    ((∃ a ∈ w._episode.sim.actors, a.id = id) →
      ∃ a, w.GetActor id = .ok (some a) ∧ a.id = id) ∧
    ((∀ a ∈ w._episode.sim.actors, a.id ≠ id) →
      w.GetActor id = .ok none) := by
  constructor
  · rintro ⟨a, ha, hid⟩
    have hs : (w._episode.sim.actors.find? (fun a => a.id == id)).isSome := by
      rw [List.find?_isSome]
      exact ⟨a, ha, by simp [hid]⟩
    obtain ⟨b, hb⟩ := Option.isSome_iff_exists.mp hs
    refine ⟨b, ?_, ?_⟩
    · simp [World.GetActor, lock_of_valid hvalid, Simulator.GetActorById, hb,
            Simulator.MakeActor]
    · simpa using List.find?_some hb
  · intro h
    have hn : w._episode.sim.actors.find? (fun a => a.id == id) = none := by
      rw [List.find?_eq_none]
      intro x hx
      simp [h x hx]
    simp [World.GetActor, lock_of_valid hvalid, Simulator.GetActorById, hn]

/-- C6 witness: in a world holding one actor with id 5, looking up id 5
returns a handle with id 5, and looking up the absent id 9 returns empty. -/
theorem getActor_id_lookup_witness :
    (∃ a, (mkWorld [vehicleActor]).GetActor 5 = .ok (some a) ∧ a.id = 5) ∧
    (mkWorld [vehicleActor]).GetActor 9 = .ok none :=
  ⟨(getActor_id_lookup (mkWorld [vehicleActor]) 5 rfl).1 (by decide),
   (getActor_id_lookup (mkWorld [vehicleActor]) 9 rfl).2 (by decide)⟩

/-- Id-level description of resolving a list of ids through `find?`: the
resolved handles, projected to their ids, are exactly the caller-supplied ids
restricted to those present, in the caller-supplied order. -/
theorem filterMap_find?_ids (actors : List Actor) (ids : List Nat) :
    (ids.filterMap (fun i => actors.find? (fun a => a.id == i))).map Actor.id
      = ids.filter (fun i => actors.any (fun a => a.id == i)) := by
  induction ids with
  | nil => rfl
  | cons i ids ih =>
    cases h : actors.find? (fun a => a.id == i) with
    | none =>
      have hany : actors.any (fun a => a.id == i) = false := by
        rw [List.any_eq_false]
        intro x hx
        simpa using List.find?_eq_none.mp h x hx
      simp [List.filterMap_cons, h, List.filter_cons, hany, ih]
    | some b =>
      have hid : b.id = i := by simpa using List.find?_some h
      have hany : actors.any (fun a => a.id == i) = true := by
        rw [List.any_eq_true]
        exact ⟨b, List.mem_of_find?_eq_some h, by simp [hid]⟩
      simp [List.filterMap_cons, h, List.filter_cons, hany, ih, hid]

/-- C7: for every caller-supplied id list, `GetActors(ids)` returns exactly
the handles of the ids present in the episode, in the caller-supplied order,
with absent ids silently omitted (no error raised per missing id), and every
returned handle is an actor of the episode. -/
theorem getActors_by_ids_order_and_omission (w : World) (ids : List Nat)
    (hvalid : w._episode.valid = true) :
    ∃ l, w.GetActorsByIds ids = .ok l ∧
      l.map Actor.id =
        ids.filter (fun i => w._episode.sim.actors.any (fun a => a.id == i)) ∧
      ∀ a ∈ l, a ∈ w._episode.sim.actors := by
  refine ⟨ids.filterMap
      (fun i => w._episode.sim.actors.find? (fun a => a.id == i)), ?_, ?_, ?_⟩
  · have hlookup : w._episode.sim.GetActorById =
        fun i => w._episode.sim.actors.find? (fun a => a.id == i) := rfl
    have hmk : w._episode.sim.MakeActor = fun description => description := rfl
    simp [World.GetActorsByIds, lock_of_valid hvalid, Simulator.GetActorsById,
          hlookup, hmk]
  · exact filterMap_find?_ids _ _
  · intro a ha
    obtain ⟨i, _, hfind⟩ := List.mem_filterMap.mp ha
    exact List.mem_of_find?_eq_some hfind

/-- C7 witness: over an episode holding actors with ids 3 and 5, resolving
`[5, 2, 3]` yields handles with ids `[5, 3]`: the present ids in
caller-supplied order, the absent id 2 omitted, no error. -/
theorem getActors_by_ids_order_and_omission_witness :
    ∃ l, (mkWorld [vehicleActor3, vehicleActor]).GetActorsByIds [5, 2, 3] =
        .ok l ∧
      l.map Actor.id = [5, 3] ∧
      ∀ a ∈ l, a ∈ (mkWorld [vehicleActor3, vehicleActor])._episode.sim.actors := by
  have h := getActors_by_ids_order_and_omission
    (mkWorld [vehicleActor3, vehicleActor]) [5, 2, 3] rfl
  simpa using h

/-- The scan loop of the traffic-control lookups returns the first actor in
iteration order whose type id matches the pattern and whose sign id equals
the landmark id. -/
theorem trafficScan_eq_find? (pattern landmark_id : String) (l : List Actor) :
    World.trafficScan pattern landmark_id l =
      l.find? (fun a => StringUtil.Match a.typeId pattern
                        && a.signId == landmark_id) := by
  induction l with
  | nil => rfl
  | cons a l ih =>
    cases hm : StringUtil.Match a.typeId pattern with
    | true =>
      cases hs : (a.signId == landmark_id) with
      | true =>
        rw [List.find?_cons_of_pos _ (by simp [hm, hs])]
        simp [World.trafficScan, hm, hs]
      | false =>
        rw [List.find?_cons_of_neg _ (by simp [hm, hs])]
        simp [World.trafficScan, hm, hs, ih]
    | false =>
      rw [List.find?_cons_of_neg _ (by simp [hm])]
      simp [World.trafficScan, hm, ih]

/-- C3: `GetTrafficSign` fetches the full current actor set and scans it in
iteration order, returning the first actor whose type id matches the wildcard
pattern `*traffic.*` and whose stable sign id exactly equals the landmark id,
and an empty result if no actor matches; concretely, over a directory holding
one actor of type `traffic.sign.yield` with sign id `"42"`, landmark id
`"42"` resolves that actor, while an empty directory or the non-matching
landmark id `"43"` resolves nothing. -/
theorem getTrafficSign_first_exact_match (w : World) (landmark : Landmark)
    (hvalid : w._episode.valid = true) :
    (w.GetTrafficSign landmark =
      .ok (w._episode.sim.actors.find?
        (fun a => StringUtil.Match a.typeId "*traffic.*"
                  && a.signId == landmark.GetId))) ∧
    (mkWorld [signYield]).GetTrafficSign ⟨"42"⟩ = .ok (some signYield) ∧
    (mkWorld []).GetTrafficSign ⟨"42"⟩ = .ok none ∧
    (mkWorld [signYield]).GetTrafficSign ⟨"43"⟩ = .ok none := by
  refine ⟨?_, by decide, by decide, by decide⟩
  have hall : w._episode.sim.GetAllTheActorsInTheEpisode =
      w._episode.sim.actors := rfl
  have hmk : w._episode.sim.MakeActor = fun description => description := rfl
  simp [World.GetTrafficSign, World.GetActors, lock_of_valid hvalid,
        hall, hmk, trafficScan_eq_find?]

/-- C3 witness: the first-exact-match characterisation evaluated on the
one-yield-sign directory with landmark id `"42"`. -/
theorem getTrafficSign_first_exact_match_witness :
    (mkWorld [signYield]).GetTrafficSign ⟨"42"⟩ =
      .ok ((mkWorld [signYield])._episode.sim.actors.find?
        (fun a => StringUtil.Match a.typeId "*traffic.*"
                  && a.signId == (⟨"42"⟩ : Landmark).GetId)) :=
  (getTrafficSign_first_exact_match (mkWorld [signYield]) ⟨"42"⟩ rfl).1

/-- C1 counterexample: on an ended session, `TrySpawnActor` does not fail
with `InvalidEpisode`: the underlying `SpawnActor` call does raise the
`std::exception`-derived `InvalidEpisode` lock failure, but `TrySpawnActor`
catches it and returns an empty result to the caller. -/
theorem trySpawn_on_ended_session_returns_empty :
    endedWorld._episode.valid = false ∧
    endedWorld.SpawnActor bp0 tf0 none .Rigid =
      .error ⟨.InvalidEpisode, true⟩ ∧
    endedWorld.TrySpawnActor bp0 tf0 none .Rigid = .returned none := by
  refine ⟨rfl, rfl, rfl⟩

/-- C1 (amended): every embedded facade operation acquires the episode
handle via `Lock` before touching session state; on an ended session every
operation fails with `InvalidEpisode` without reaching the session — except
`TrySpawnActor`, which catches that failure and returns an empty result. -/
theorem facade_ops_lock_first_fail_invalid (w : World)
    (hended : w._episode.valid = false)
    (id timeout : Nat) (ids : List Nat) (blueprint : ActorBlueprint)
    (transform : Transform) (parent_actor : Option Actor)
    (attachment_type : AttachmentType) (landmark : Landmark)
    (location start_location end_location : Location)
    (direction : Vector3D) (search_distance : Int) :
    w.GetSnapshot = .error .InvalidEpisode ∧
    w.GetActor id = .error .InvalidEpisode ∧
    w.GetActors = .error .InvalidEpisode ∧
    w.GetActorsByIds ids = .error .InvalidEpisode ∧
    w.SpawnActor blueprint transform parent_actor attachment_type =
      .error ⟨.InvalidEpisode, true⟩ ∧
    w.WaitForTick timeout = .error .InvalidEpisode ∧
    w.OnTick = .error .InvalidEpisode ∧
    w.RemoveOnTick id = .error .InvalidEpisode ∧
    w.Tick timeout = .error .InvalidEpisode ∧
    w.GetTrafficSign landmark = .error .InvalidEpisode ∧
    w.GetTrafficLight landmark = .error .InvalidEpisode ∧
    w.ProjectPoint location direction search_distance =
      .error .InvalidEpisode ∧
    w.GroundProjection location search_distance = .error .InvalidEpisode ∧
    w.CastRay start_location end_location = .error .InvalidEpisode ∧
    w.TrySpawnActor blueprint transform parent_actor attachment_type =
      .returned none := by
  have hl := lock_of_ended hended
  refine ⟨by simp [World.GetSnapshot, hl], by simp [World.GetActor, hl],
    by simp [World.GetActors, hl], by simp [World.GetActorsByIds, hl],
    by simp [World.SpawnActor, hl], by simp [World.WaitForTick, hl],
    by simp [World.OnTick, hl], by simp [World.RemoveOnTick, hl],
    by simp [World.Tick, hl],
    by simp [World.GetTrafficSign, World.GetActors, hl],
    by simp [World.GetTrafficLight, World.GetActors, hl],
    by simp [World.ProjectPoint, hl],
    by simp [World.GroundProjection, World.ProjectPoint, hl],
    by simp [World.CastRay, hl],
    by simp [World.TrySpawnActor, World.SpawnActor, hl]⟩

/-- C1 witness: the amended behaviour evaluated on a concrete ended-session
world with concrete arguments. -/
theorem facade_ops_lock_first_fail_invalid_witness :
    endedWorld.GetSnapshot = .error .InvalidEpisode ∧
    endedWorld.GetActor 1 = .error .InvalidEpisode ∧
    endedWorld.GetActors = .error .InvalidEpisode ∧
    endedWorld.GetActorsByIds [1, 2] = .error .InvalidEpisode ∧
    endedWorld.SpawnActor bp0 tf0 none .Rigid =
      .error ⟨.InvalidEpisode, true⟩ ∧
    endedWorld.WaitForTick 10 = .error .InvalidEpisode ∧
    endedWorld.OnTick = .error .InvalidEpisode ∧
    endedWorld.RemoveOnTick 1 = .error .InvalidEpisode ∧
    endedWorld.Tick 10 = .error .InvalidEpisode ∧
    endedWorld.GetTrafficSign ⟨"42"⟩ = .error .InvalidEpisode ∧
    endedWorld.GetTrafficLight ⟨"42"⟩ = .error .InvalidEpisode ∧
    endedWorld.ProjectPoint ⟨0, 0, 0⟩ ⟨0, 0, -1⟩ 10 =
      .error .InvalidEpisode ∧
    endedWorld.GroundProjection ⟨0, 0, 0⟩ 10 = .error .InvalidEpisode ∧
    endedWorld.CastRay ⟨0, 0, 0⟩ ⟨1, 1, 1⟩ = .error .InvalidEpisode ∧
    endedWorld.TrySpawnActor bp0 tf0 none .Rigid = .returned none :=
  facade_ops_lock_first_fail_invalid endedWorld rfl 1 10 [1, 2] bp0 tf0
    none .Rigid ⟨"42"⟩ ⟨0, 0, 0⟩ ⟨0, 0, 0⟩ ⟨1, 1, 1⟩ ⟨0, 0, -1⟩ 10

/-- C8: on a live episode, every `Tick(timeout)` call either returns a frame
number strictly greater than the session's previous frame (and than the frame
returned by the previous `Tick` call, when the calls are chained), or fails
with `Timeout` when no simulation step completes within the timeout; the
embedded operation is a total function, so it always returns one of the
two. -/
theorem tick_frame_strictly_increases_or_timeout (w : World) (t t' : Nat)
    (hvalid : w._episode.valid = true) :
    ((∃ f w', w.Tick t = .ok (f, w') ∧ w._episode.sim.frame < f ∧
        w'._episode.sim.frame = f) ∨
      w.Tick t = .error .Timeout) ∧
    (∀ f₁ w₁ f₂ w₂, w.Tick t = .ok (f₁, w₁) → w₁.Tick t' = .ok (f₂, w₂) →
      f₁ < f₂) := by
  have hrun : ∀ (u : World) (s : Nat), u._episode.valid = true →
      ((∃ f u', u.Tick s = .ok (f, u') ∧ u._episode.sim.frame < f ∧
          u'._episode.sim.frame = f ∧ u'._episode.valid = true) ∨
        u.Tick s = .error .Timeout) := by
    intro u s hu
    cases hstep : u._episode.sim.stepCompletesWithin s with
    | true =>
      left
      have heq : u.Tick s = .ok (u._episode.sim.frame + 1,
          { u with _episode := { u._episode with
              sim := { u._episode.sim with
                        frame := u._episode.sim.frame + 1 } } }) := by
        simp [World.Tick, lock_of_valid hu, Simulator.Tick, hstep]
      exact ⟨u._episode.sim.frame + 1, _, heq, Nat.lt_succ_self _, rfl, hu⟩
    | false =>
      right
      simp [World.Tick, lock_of_valid hu, Simulator.Tick, hstep]
  have hinv : ∀ (u : World) (s f : Nat) (u' : World),
      u._episode.valid = true → u.Tick s = .ok (f, u') →
      u._episode.sim.frame < f ∧ u'._episode.sim.frame = f ∧
        u'._episode.valid = true := by
    intro u s f u' hu hok
    rcases hrun u s hu with ⟨g, v, h1, h2, h3, h4⟩ | h
    · rw [hok] at h1
      injection h1 with hp
      cases hp
      exact ⟨h2, h3, h4⟩
    · rw [hok] at h
      exact Except.noConfusion h
  constructor
  · rcases hrun w t hvalid with ⟨f, w', h1, h2, h3, _⟩ | h
    · exact Or.inl ⟨f, w', h1, h2, h3⟩
    · exact Or.inr h
  · intro f₁ w₁ f₂ w₂ h1 h2
    obtain ⟨_, ha2, ha3⟩ := hinv w t f₁ w₁ hvalid h1
    obtain ⟨hb1, _, _⟩ := hinv w₁ t' f₂ w₂ ha3 h2
    omega

/-- C8 witness: on a concrete live world at frame 0 whose steps complete
within any timeout, the first `Tick` returns frame 1 and chained `Tick`
results strictly increase. -/
theorem tick_frame_strictly_increases_or_timeout_witness :
    ((∃ f w', (mkWorld []).Tick 10 = .ok (f, w') ∧
        (mkWorld [])._episode.sim.frame < f ∧
        w'._episode.sim.frame = f) ∨
      (mkWorld []).Tick 10 = .error .Timeout) ∧
    (∀ f₁ w₁ f₂ w₂, (mkWorld []).Tick 10 = .ok (f₁, w₁) →
      w₁.Tick 10 = .ok (f₂, w₂) → f₁ < f₂) :=
  tick_frame_strictly_increases_or_timeout (mkWorld []) 10 10 rfl

/-- The `remove` step leaves the removed id unregistered; the freshness
hypothesis on the monotonic id counter keeps it that way under every later
step. -/
theorem registryStep_preserves_removedOut {st st' : RegistryState}
    {e : RegistryEvent} {i : Nat} (h : RegistryStep st e st')
    (hinv : RemovedOut i st) : RemovedOut i st' := by
  obtain ⟨hreg, hlt⟩ := hinv
  cases h with
  | register =>
    refine ⟨?_, Nat.lt_succ_of_lt hlt⟩
    intro hmem
    rcases List.mem_append.mp hmem with h1 | h1
    · exact hreg h1
    · simp at h1
      omega
  | remove j =>
    exact ⟨fun hmem => hreg (List.mem_of_mem_filter hmem), hlt⟩
  | beginDispatch f hp => exact ⟨hreg, hlt⟩
  | invoke f j rest hp hm => exact ⟨hreg, hlt⟩
  | skip f j rest hp hm => exact ⟨hreg, hlt⟩
  | endDispatch f hp => exact ⟨hreg, hlt⟩

/-- Once an id is unregistered and below the fresh-id counter, no trace of
the registry ever invokes it, also not from dispatch rounds already in
flight. -/
theorem registryTrace_no_invoke_of_removedOut {i f : Nat} :
    ∀ {st st' : RegistryState} {es : List RegistryEvent},
      RegistryTrace st es st' → RemovedOut i st →
      RegistryEvent.invoke i f ∉ es := by
  intro st st' es htr
  induction htr with
  | nil => intro _ h; simp at h
  | cons hstep htr ih =>
    intro hinv hmem
    rcases List.mem_cons.mp hmem with he | he
    · rw [← he] at hstep
      cases hstep with
      | invoke f' i' rest hp hm => exact hinv.1 hm
    · exact ih (registryStep_preserves_removedOut hstep hinv) he

/-- C9: once a `RemoveOnTick(i)` step has completed, the callback registered
under `i` is never invoked for any snapshot delivered after the removal
completes, even when the removal races with an in-flight snapshot dispatch
(the pending dispatch list may still contain `i`, but delivery skips
unregistered ids).  The freshness hypothesis `i < st₀.next` holds for every
id the registry ever handed out, since registration ids are allocated from
the monotonic counter. -/
theorem removed_callback_never_reinvoked (st₀ st₁ st₂ : RegistryState)
    (i : Nat) (es : List RegistryEvent)
    (hrem : RegistryStep st₀ (.remove i) st₁)
    (hfresh : i < st₀.next)
    (htr : RegistryTrace st₁ es st₂) :
    ∀ f, RegistryEvent.invoke i f ∉ es := by
  intro f
  have hinv : RemovedOut i st₁ := by
    cases hrem with
    | remove =>
      refine ⟨?_, hfresh⟩
      intro hmem
      have h2 := (List.mem_filter.mp hmem).2
      simp at h2
  exact registryTrace_no_invoke_of_removedOut htr hinv

/-- C9 witness: a registry holding the single callback id 0 with a dispatch
in flight that still has id 0 pending; after `remove 0`, the in-flight
dispatch can only `skip` id 0, and the trace doing so invokes nothing. -/
theorem removed_callback_never_reinvoked_witness :
    RegistryEvent.invoke 0 7 ∉
      [RegistryEvent.skip 0 9, RegistryEvent.endDispatch 9] :=
  removed_callback_never_reinvoked ⟨[0], 1, some (9, [0])⟩ _ _ 0 _
    (RegistryStep.remove ⟨[0], 1, some (9, [0])⟩ 0)
    (by decide)
    (RegistryTrace.cons
      (RegistryStep.skip _ 9 0 [] rfl (by decide))
      (RegistryTrace.cons (RegistryStep.endDispatch _ 9 rfl)
        (RegistryTrace.nil _)))
    7

end Carla
